import Mathlib

/-!
Shallow embedding of the exFAT on-disk decoding library (`src/lib.rs`) and
proofs about its boot-sector validation, FAT table loading, cluster-chain
iteration and directory-entry type decoding.

Bytes are modelled as `Nat` values and buffers as `List Nat`; the Rust
`read_num_bytes!` macro (copy bytes, convert to little-endian) is modelled by
`readLE`.  Fallible constructors return `Except`; a Rust `panic` path (an
out-of-bounds slice index) is modelled by an explicit constructor so that it
stays distinguishable from both a clean result and a clean end of iteration.
-/

namespace Exfat

/-- Little-endian decoding of `sz` bytes of `raw` starting at byte `offs`,
modelling the `read_num_bytes!` macro (which copies the bytes of an
unsigned integer and applies `to_le`). -/
def readLE (raw : List Nat) (offs sz : Nat) : Nat :=
  (((raw.drop offs).take sz).reverse).foldl (fun a b => a * 256 + b) 0

/-- The ASCII bytes of `"EXFAT   "` (three trailing spaces), the magic the
boot sector must carry at bytes 3..11. -/
def exfatMagic : List Nat := [0x45, 0x58, 0x46, 0x41, 0x54, 0x20, 0x20, 0x20]

/-- Errors from `BootSector::validate` (enum `BootSectorInitError`). -/
inductive BootSectorInitError where
  | BadMagic (bytes : List Nat)
  | MustBeZeroNonZero
  | FatOffsTooSmall (v : Nat)
deriving DecidableEq, Repr

/-- `BootSector`: stores the raw 512 bytes of the superblock. -/
structure BootSector where
  raw : List Nat
deriving DecidableEq, Repr

/-- Bytes 3..11, the magic string (`BootSector::magic`). -/
def BootSector.magic (b : BootSector) : List Nat :=
  (b.raw.drop 3).take 8

/-- Bytes 11..64, the reserved must-be-zero region checked by `validate`. -/
def BootSector.mustBeZero (b : BootSector) : List Nat :=
  (b.raw.drop 11).take 53

/-- u64 at offset 64 (`BootSector::partition_offs`). -/
def BootSector.partition_offs (b : BootSector) : Nat := readLE b.raw 64 8

/-- u64 at offset 72 (`BootSector::volume_len`). -/
def BootSector.volume_len (b : BootSector) : Nat := readLE b.raw 72 8

/-- u32 at offset 80 (`BootSector::fat_offs`). -/
def BootSector.fat_offs (b : BootSector) : Nat := readLE b.raw 80 4

/-- u32 at offset 84 (`BootSector::fat_len`). -/
def BootSector.fat_len (b : BootSector) : Nat := readLE b.raw 84 4

/-- u32 at offset 88 (`BootSector::cluster_heap_offs`). -/
def BootSector.cluster_heap_offs (b : BootSector) : Nat := readLE b.raw 88 4

/-- u32 at offset 92 (`BootSector::cluster_count`). -/
def BootSector.cluster_count (b : BootSector) : Nat := readLE b.raw 92 4

/-- u32 at offset 96 (`BootSector::first_cluster_of_root_dir`). -/
def BootSector.first_cluster_of_root_dir (b : BootSector) : Nat := readLE b.raw 96 4

/-- u32 at offset 100 (`BootSector::volume_serial_num`). -/
def BootSector.volume_serial_num (b : BootSector) : Nat := readLE b.raw 100 4

/-- u16 at offset 104 (`BootSector::file_system_rev`). -/
def BootSector.file_system_rev (b : BootSector) : Nat := readLE b.raw 104 2

/-- u16 at offset 106 (`BootSector::volume_flags`). -/
def BootSector.volume_flags (b : BootSector) : Nat := readLE b.raw 106 2

/-- u8 at offset 108 (`BootSector::bytes_per_sector_shift`). -/
def BootSector.bytes_per_sector_shift (b : BootSector) : Nat := b.raw.getD 108 0

/-- u8 at offset 109 (`BootSector::sectors_per_cluster_shift`). -/
def BootSector.sectors_per_cluster_shift (b : BootSector) : Nat := b.raw.getD 109 0

/-- u8 at offset 110 (`BootSector::number_of_fats`). -/
def BootSector.number_of_fats (b : BootSector) : Nat := b.raw.getD 110 0

/-- u8 at offset 111 (`BootSector::drive_select`). -/
def BootSector.drive_select (b : BootSector) : Nat := b.raw.getD 111 0

/-- u8 at offset 112 (`BootSector::percent_in_use`). -/
def BootSector.percent_in_use (b : BootSector) : Nat := b.raw.getD 112 0

/-- 390 bytes at offset 120 (`BootSector::boot_code`). -/
def BootSector.boot_code (b : BootSector) : List Nat :=
  (b.raw.drop 120).take 390

/-- 2 bytes at offset 510 (`BootSector::boot_signature`). -/
def BootSector.boot_signature (b : BootSector) : List Nat :=
  (b.raw.drop 510).take 2

/-- `BootSector::validate`: checks, in order, the magic at bytes 3..11, that
bytes 11..64 are all zero (the source loops over `raw[11..(11+53)]`), and that
`fat_offs >= 24`.  The cross-field bound checks are only comment placeholders
in the source (empty blocks), so nothing else is checked. -/
def BootSector.validate (b : BootSector) : Except BootSectorInitError BootSector :=
  if b.magic ≠ exfatMagic then .error (.BadMagic b.magic)
  else if b.mustBeZero.any (fun x => x != 0) then .error .MustBeZeroNonZero
  else if b.fat_offs < 24 then .error (.FatOffsTooSmall b.fat_offs)
  else .ok b

/-- `BootSector::from`: wrap the exact 512 bytes and validate. -/
def BootSector.from' (s : List Nat) : Except BootSectorInitError BootSector :=
  BootSector.validate ⟨s⟩

/-- A well-formed 512-byte boot sector image: three zero jump bytes, the
magic, a zeroed reserved region, `fat_offs = 24`, all remaining bytes zero. -/
def goodBuf : List Nat :=
  List.replicate 3 0 ++ exfatMagic ++ List.replicate 53 0 ++
  List.replicate 16 0 ++ [24, 0, 0, 0] ++ List.replicate 428 0

/-- A 512-byte image identical to `goodBuf` except byte 110
(`number_of_fats`) is 3, violating the documented bound `1 ≤ number_of_fats ≤ 2`. -/
def badFatsBuf : List Nat :=
  List.replicate 3 0 ++ exfatMagic ++ List.replicate 53 0 ++
  List.replicate 16 0 ++ [24, 0, 0, 0] ++ List.replicate 26 0 ++ [3] ++
  List.replicate 401 0

/-- Decidable equality for `Except`, needed to evaluate the constructors on
concrete inputs. -/
def exceptDecEq {ε α : Type} [DecidableEq ε] [DecidableEq α] :
    DecidableEq (Except ε α) := fun a b =>
  match a, b with
  | .ok x, .ok y =>
    if h : x = y then isTrue (by rw [h]) else isFalse (by simp [h])
  | .error x, .error y =>
    if h : x = y then isTrue (by rw [h]) else isFalse (by simp [h])
  | .ok _, .error _ => isFalse (by simp)
  | .error _, .ok _ => isFalse (by simp)

instance {ε α : Type} [DecidableEq ε] [DecidableEq α] :
    DecidableEq (Except ε α) := exceptDecEq

/-- Errors from `Fat::read_at_from`: the panic taken when the byte length is
not a multiple of 4 (a caller contract violation) is kept distinct from an
I/O error surfaced by the underlying `read_at`. -/
inductive FatReadError where
  | contract
  | io
deriving DecidableEq, Repr

/-- Group a byte list into little-endian u32 values, four bytes per entry:
the contents of the `Vec<u32>` that `Fat::read_at_from` fills. -/
def decodeU32s : List Nat → List Nat
  | b0 :: b1 :: b2 :: b3 :: rest =>
      (b0 + 256 * (b1 + 256 * (b2 + 256 * b3))) :: decodeU32s rest
  | _ => []

/-- `Fat`: the FAT as a vector of u32 entries. -/
structure Fat where
  v : List Nat
deriving DecidableEq, Repr

/-- `Fat::read_at_from`: reject a length that is not a multiple of 4 before
reading (the source panics there), otherwise read `len` bytes at `offs` and
keep them as `len / 4` u32 entries. -/
def Fat.read_at_from (store : List Nat) (offs len : Nat) : Except FatReadError Fat :=
  if len % 4 ≠ 0 then .error .contract
  else .ok ⟨decodeU32s ((store.drop offs).take len)⟩

/-- `Fat::cluster_ct`, exactly as the source computes it:
`self.v.len() as u32 / 4 - 2` — note `v.len()` is already the entry count,
not the byte length. -/
def Fat.cluster_ct (f : Fat) : Nat := f.v.length / 4 - 2

/-- `FatEntry::is_bad`: the value is the bad-cluster marker 0xFFFFFFF7. -/
def isBad (v : Nat) : Bool := v == 0xFFFFFFF7

/-- `FatEntry::is_last`: the value is the chain terminator 0xFFFFFFFF. -/
def isLast (v : Nat) : Bool := v == 0xFFFFFFFF

/-- `Fat::entry`: `self.v[e.val() as usize]`.  The Rust index panics when it
is out of range; that is modelled by `none`. -/
def Fat.entry (f : Fat) (e : Nat) : Option Nat := f.v.get? e

/-- The observable outcome of one call to `<ClusterChain as Iterator>::next`:
a clean end of iteration (`None` in Rust), an aborting out-of-bounds table
index (a Rust panic), or a yielded item together with the walker's new
current entry. -/
inductive ChainStep where
  | done
  | panic
  | item (i : Except Nat Nat) (next : Nat)
deriving DecidableEq, Repr

/-- One call to `ClusterChain::next`, as a function of the FAT and the
walker's current entry value `e`: if `e` is the terminator, iteration ends;
otherwise the next entry is looked up at index `e` (panicking if out of
range); if that next entry is bad, the item is `Err(e)`, else `Ok(e)`; in
both cases the walker's entry becomes the looked-up value. -/
def ClusterChain.next (f : Fat) (e : Nat) : ChainStep :=
  if isLast e then .done
  else
    match f.entry e with
    | none => .panic
    | some n => if isBad n then .item (.error e) n else .item (.ok e) n

/-- The list of items produced by repeatedly calling `next`, up to `fuel`
calls; a clean end (`done`) and the abort path (`panic`) both produce no
further items. -/
def ClusterChain.trace (f : Fat) : Nat → Nat → List (Except Nat Nat)
  | _, 0 => []
  | e, fuel + 1 =>
    match ClusterChain.next f e with
    | .done => []
    | .panic => []
    | .item i n => i :: ClusterChain.trace f n fuel

/-- The cluster index carried by a yielded item, success or error alike. -/
def carried : Except Nat Nat → Nat
  | .ok c => c
  | .error c => c

/-- The FAT-linkage invariant over a list of cluster indices: every element
after the first is the FAT entry stored at its predecessor. -/
def linked (f : Fat) : List Nat → Prop
  | a :: b :: rest => f.entry a = some b ∧ linked f (b :: rest)
  | _ => True

/-- `EntryType::type_code`: `self.raw & ((1 << 6) - 1)`. -/
def EntryType.type_code (raw : Nat) : Nat := raw &&& ((1 <<< 6) - 1)

/-- `EntryType::type_importance`: `(self.raw >> 5) & 1`. -/
def EntryType.type_importance (raw : Nat) : Nat := (raw >>> 5) &&& 1

/-- `EntryType::type_category`: `(self.raw >> 6) & 1`. -/
def EntryType.type_category (raw : Nat) : Nat := (raw >>> 6) &&& 1

/-- `EntryType::in_use`: `(self.raw >> 6) & 1 != 0`. -/
def EntryType.in_use (raw : Nat) : Bool := ((raw >>> 6) &&& 1) != 0

/-- `BootSector::read_at_from`: read 512 bytes at byte offset `offs` of the
store and validate them. -/
def BootSector.read_at_from (store : List Nat) (offs : Nat) :
    Except BootSectorInitError BootSector :=
  BootSector.from' ((store.drop offs).take 512)

/-- The byte offset at which `BootRegion::read_at_from` reads the OEM
parameter area: `offs + 512 * 9` in the source, with the sector size
hard-coded to 512 (the FIXME there concedes the boot sector's sector size
should be used instead). -/
def BootRegion.oemOffs (offs : Nat) : Nat := offs + 512 * 9

/-- `OemParameters`: the raw bytes of the OEM parameter sector. -/
structure OemParameters where
  s : List Nat
deriving DecidableEq, Repr

/-- Modelled from the spec: the body of `OemParameters::read_at_from` does
not parse in the source (`s::`); per the spec it reads the OEM parameter
area (10 slots of 48 bytes = 480 bytes) at the given byte offset. -/
def OemParameters.read_at_from (store : List Nat) (offs : Nat) : OemParameters :=
  ⟨(store.drop offs).take 480⟩

/-- `BootRegion`: a boot sector plus its OEM parameter area. -/
structure BootRegion where
  bs : BootSector
  oem : OemParameters
deriving DecidableEq, Repr

/-- `BootRegion::read_at_from`: the boot sector at `offs`, then the OEM area
at `BootRegion.oemOffs offs`; a boot-sector failure propagates. -/
def BootRegion.read_at_from (store : List Nat) (offs : Nat) :
    Except BootSectorInitError BootRegion :=
  match BootSector.read_at_from store offs with
  | .error e => .error e
  | .ok bs => .ok ⟨bs, OemParameters.read_at_from store (BootRegion.oemOffs offs)⟩

/-- The byte offset of the backup boot region in `Fs::from_ro`: `512 * 24`
in the source, again with the sector size hard-coded to 512 (the FIXME there
concedes it). -/
def Fs.backupOffs : Nat := 512 * 24

/-- `Fs`: the two boot regions of a mounted volume. -/
structure Fs where
  boot_regions : BootRegion × BootRegion
deriving DecidableEq, Repr

/-- `Fs::from_ro`: the primary region at offset 0 and the backup region at
`Fs.backupOffs`; mounting fails if either region fails to load. -/
def Fs.from_ro (store : List Nat) : Except BootSectorInitError Fs :=
  match BootRegion.read_at_from store 0 with
  | .error e => .error e
  | .ok r0 =>
    match BootRegion.read_at_from store Fs.backupOffs with
    | .error e => .error e
    | .ok r1 => .ok ⟨(r0, r1)⟩

end Exfat

namespace Exfat

/-- Unfolding lemma for one iterator call inside a fuelled trace. -/
theorem trace_succ (f : Fat) (e fuel : Nat) :
    ClusterChain.trace f e (fuel + 1) =
      match ClusterChain.next f e with
      | .done => []
      | .panic => []
      | .item i n => i :: ClusterChain.trace f n fuel := rfl

/-- When `next` yields an item, the item carries the walker's current entry
and the new current entry is the FAT entry stored at it. -/
theorem next_item_spec (f : Fat) (s : Nat) (i : Except Nat Nat) (m : Nat)
    (h : ClusterChain.next f s = .item i m) :
    carried i = s ∧ f.entry s = some m := by
  unfold ClusterChain.next at h
  by_cases hl : isLast s
  · rw [if_pos hl] at h
    exact absurd h (by simp)
  · rw [if_neg hl] at h
    split at h
    · exact absurd h (by simp)
    · rename_i n' he
      split_ifs at h with hb
      · injection h with h1 h2
        subst h1; subst h2
        exact ⟨rfl, he⟩
      · injection h with h1 h2
        subst h1; subst h2
        exact ⟨rfl, he⟩

/-- C1: for every 512-byte buffer whose bytes 3..11 are `"EXFAT   "`, whose
bytes 11..64 are all zero and whose little-endian u32 at offset 80 is at
least 24, `BootSector::from` succeeds, and every field accessor of the
constructed view returns exactly the little-endian value decoded at its
documented offset. -/
theorem bootSector_from_ok_accessors (s : List Nat) (hlen : s.length = 512)
    (hmagic : (s.drop 3).take 8 = exfatMagic)
    (hzero : ∀ x ∈ (s.drop 11).take 53, x = 0)
    (hfat : 24 ≤ readLE s 80 4) :
    BootSector.from' s = .ok ⟨s⟩ ∧
    BootSector.partition_offs ⟨s⟩ = readLE s 64 8 ∧
    BootSector.volume_len ⟨s⟩ = readLE s 72 8 ∧
    BootSector.fat_offs ⟨s⟩ = readLE s 80 4 ∧
    BootSector.fat_len ⟨s⟩ = readLE s 84 4 ∧
    BootSector.cluster_heap_offs ⟨s⟩ = readLE s 88 4 ∧
    BootSector.cluster_count ⟨s⟩ = readLE s 92 4 ∧
    BootSector.first_cluster_of_root_dir ⟨s⟩ = readLE s 96 4 ∧
    BootSector.volume_serial_num ⟨s⟩ = readLE s 100 4 ∧
    BootSector.file_system_rev ⟨s⟩ = readLE s 104 2 ∧
    BootSector.volume_flags ⟨s⟩ = readLE s 106 2 ∧
    BootSector.bytes_per_sector_shift ⟨s⟩ = s.getD 108 0 ∧
    BootSector.sectors_per_cluster_shift ⟨s⟩ = s.getD 109 0 ∧
    BootSector.number_of_fats ⟨s⟩ = s.getD 110 0 ∧
    BootSector.drive_select ⟨s⟩ = s.getD 111 0 ∧
    BootSector.percent_in_use ⟨s⟩ = s.getD 112 0 ∧
    BootSector.boot_code ⟨s⟩ = (s.drop 120).take 390 ∧
    BootSector.boot_signature ⟨s⟩ = (s.drop 510).take 2 := by
  refine ⟨?_, rfl, rfl, rfl, rfl, rfl, rfl, rfl, rfl, rfl, rfl, rfl, rfl,
    rfl, rfl, rfl, rfl, rfl⟩
  have hm : BootSector.magic ⟨s⟩ = exfatMagic := hmagic
  have hz : (BootSector.mustBeZero ⟨s⟩).any (fun x => x != 0) = false := by
    rw [List.any_eq_false]
    intro x hx
    simpa using hzero x hx
  have hf : ¬ BootSector.fat_offs ⟨s⟩ < 24 := Nat.not_lt.mpr hfat
  unfold BootSector.from' BootSector.validate
  rw [if_neg (by simp [hm]), if_neg (by simp [hz]), if_neg hf]

set_option maxRecDepth 10000 in
/-- C1 witness: a concrete well-formed buffer on which the theorem's
hypotheses hold. -/
theorem bootSector_from_ok_accessors_witness :
    BootSector.from' goodBuf = .ok ⟨goodBuf⟩ :=
  (bootSector_from_ok_accessors goodBuf (by decide) (by decide)
    (by decide) (by decide)).1

set_option maxRecDepth 10000 in
/-- C2: the claim requires construction to fail for any buffer violating a
cross-field invariant, but `BootSector::validate` leaves those checks as
empty comment blocks.  `badFatsBuf` has `number_of_fats = 3`, outside the
documented range {1,2}, yet `BootSector::from` accepts it. -/
theorem bootSector_cross_field_unchecked :
    BootSector.number_of_fats ⟨badFatsBuf⟩ = 3 ∧
    BootSector.from' badFatsBuf = .ok ⟨badFatsBuf⟩ := by
  constructor
  · decide
  · decide

/-- C9: whenever `BootSector::from` succeeds, the stored raw bytes are
exactly the input buffer; validation only reads. -/
theorem bootSector_from_frame (s : List Nat) (bs : BootSector)
    (h : BootSector.from' s = .ok bs) : bs.raw = s := by
  unfold BootSector.from' BootSector.validate at h
  split_ifs at h <;>
    first
      | exact Except.noConfusion h
      | (injection h with h2; subst h2; rfl)

set_option maxRecDepth 10000 in
/-- C9 witness: the frame property applied to the concrete good buffer. -/
theorem bootSector_from_frame_witness :
    (⟨goodBuf⟩ : BootSector).raw = goodBuf :=
  bootSector_from_frame goodBuf ⟨goodBuf⟩ (by decide)

/-- C3 counterexample: with entry[5] = 6 and entry[6] = 0xFFFFFFF7, the
walker started at cluster 5 does not yield a success for 5 followed by an
error carrying 5: the error element carries 6 (the cluster whose FAT entry
is the bad marker). -/
theorem clusterChain_bad_claimed_trace_false :
    ClusterChain.trace ⟨[0, 0, 0, 0, 0, 6, 0xFFFFFFF7]⟩ 5 2 ≠
      [Except.ok 5, Except.error 5] := by decide

/-- C3 amended: started at cluster 5 on that table, the walker yields
exactly `Ok 5` then `Err 6` for every fuel of at least two calls, and the
call after the error element takes the out-of-bounds panic path (looking up
index 0xFFFFFFF7) rather than reporting a clean end of iteration. -/
theorem clusterChain_bad_trace :
    (∀ k, ClusterChain.trace ⟨[0, 0, 0, 0, 0, 6, 0xFFFFFFF7]⟩ 5 (k + 1 + 1) =
        [Except.ok 5, Except.error 6]) ∧
    ClusterChain.next ⟨[0, 0, 0, 0, 0, 6, 0xFFFFFFF7]⟩ 0xFFFFFFF7 =
      ChainStep.panic := by
  have hent : Fat.entry ⟨[0, 0, 0, 0, 0, 6, 0xFFFFFFF7]⟩ 0xFFFFFFF7 = none :=
    List.get?_eq_none.mpr (by decide)
  have hnp : ClusterChain.next ⟨[0, 0, 0, 0, 0, 6, 0xFFFFFFF7]⟩ 0xFFFFFFF7 =
      ChainStep.panic := by
    unfold ClusterChain.next
    rw [if_neg (by decide), hent]
  have hn5 : ClusterChain.next ⟨[0, 0, 0, 0, 0, 6, 0xFFFFFFF7]⟩ 5 =
      ChainStep.item (Except.ok 5) 6 := by decide
  have hn6 : ClusterChain.next ⟨[0, 0, 0, 0, 0, 6, 0xFFFFFFF7]⟩ 6 =
      ChainStep.item (Except.error 6) 0xFFFFFFF7 := by decide
  have htail : ∀ fuel,
      ClusterChain.trace ⟨[0, 0, 0, 0, 0, 6, 0xFFFFFFF7]⟩ 0xFFFFFFF7 fuel = [] := by
    intro fuel
    cases fuel with
    | zero => rfl
    | succ n => rw [trace_succ, hnp]
  refine ⟨fun k => ?_, hnp⟩
  rw [trace_succ, hn5]
  dsimp only
  rw [trace_succ, hn6]
  dsimp only
  rw [htail k]

/-- C4 counterexample: with entry[5] = 6 and entry[6] = 0xFFFFFFFF, the
walker started at cluster 5 yields two success elements, not one; and a
start cluster whose own FAT entry is the terminator yields one element, not
zero. -/
theorem clusterChain_term_claimed_trace_false :
    ClusterChain.trace ⟨[0, 0, 0, 0, 0, 6, 0xFFFFFFFF]⟩ 5 4 ≠
      [Except.ok 5] ∧
    ClusterChain.trace ⟨[0, 0, 0, 0, 0, 0xFFFFFFFF]⟩ 5 4 ≠ [] := by
  constructor
  · decide
  · decide

/-- C4 amended: on the table with entry[5] = 6 and entry[6] = 0xFFFFFFFF the
walker started at 5 yields exactly `Ok 5` then `Ok 6` (cluster 6 is part of
the chain; its entry is the terminator) and then ends for every fuel of at
least three calls; a walker whose initial entry value is itself the
terminator 0xFFFFFFFF yields zero elements on any table; and starting at a
cluster 5 whose own FAT entry is the terminator yields exactly `Ok 5`. -/
theorem clusterChain_term_trace :
    (∀ k, ClusterChain.trace ⟨[0, 0, 0, 0, 0, 6, 0xFFFFFFFF]⟩ 5 (k + 1 + 1 + 1) =
        [Except.ok 5, Except.ok 6]) ∧
    (∀ f fuel, ClusterChain.trace f 0xFFFFFFFF fuel = []) ∧
    (∀ k, ClusterChain.trace ⟨[0, 0, 0, 0, 0, 0xFFFFFFFF]⟩ 5 (k + 1 + 1) =
        [Except.ok 5]) := by
  have hdone : ∀ f : Fat, ClusterChain.next f 0xFFFFFFFF = ChainStep.done := by
    intro f
    unfold ClusterChain.next
    rw [if_pos (by decide)]
  have hterm : ∀ (f : Fat) fuel, ClusterChain.trace f 0xFFFFFFFF fuel = [] := by
    intro f fuel
    cases fuel with
    | zero => rfl
    | succ n => rw [trace_succ, hdone]
  refine ⟨fun k => ?_, hterm, fun k => ?_⟩
  · have hn5 : ClusterChain.next ⟨[0, 0, 0, 0, 0, 6, 0xFFFFFFFF]⟩ 5 =
        ChainStep.item (Except.ok 5) 6 := by decide
    have hn6 : ClusterChain.next ⟨[0, 0, 0, 0, 0, 6, 0xFFFFFFFF]⟩ 6 =
        ChainStep.item (Except.ok 6) 0xFFFFFFFF := by decide
    rw [trace_succ, hn5]
    dsimp only
    rw [trace_succ, hn6]
    dsimp only
    rw [hterm]
  · have hn5 : ClusterChain.next ⟨[0, 0, 0, 0, 0, 0xFFFFFFFF]⟩ 5 =
        ChainStep.item (Except.ok 5) 0xFFFFFFFF := by decide
    rw [trace_succ, hn5]
    dsimp only
    rw [hterm]

/-- C5: the claim requires the OEM parameter area to be read at
`offs + 9 · 2^bytes_per_sector_shift` and the backup boot region at
`24 · 2^bytes_per_sector_shift`, but the source hard-codes a 512-byte
sector in both places (its own FIXME comments concede this), which differs
from the required offsets for any boot sector with
`bytes_per_sector_shift ≠ 9`, for example 12. -/
theorem fs_sector_size_hardcoded :
    BootRegion.oemOffs 0 = 512 * 9 ∧
    Fs.backupOffs = 512 * 24 ∧
    512 * 9 ≠ 9 * 2 ^ 12 ∧
    512 * 24 ≠ 24 * 2 ^ 12 := by decide

/-- C6 counterexample: `EntryType::type_code` masks six bits, not five
(`0xE5` gives `0x25`, while bits 0..4 of `0xE5` are `0x05`), and `in_use`
tests bit 6, which is clear in `0x85`, so `in_use(0x85)` is false rather
than the claimed true. -/
theorem entryType_claimed_bits_false :
    EntryType.type_code 0xE5 ≠ 0xE5 % 32 ∧
    EntryType.in_use 0x85 ≠ true := by
  constructor
  · decide
  · decide

/-- C6 amended: `type_code` returns bits 0..5 of the byte (its value modulo
64), `type_importance` returns bit 5, `in_use` tests bit 6; consequently
`type_code 0x85 = 0x05` and `in_use 0x85 = false`. -/
theorem entryType_decomposition (b : Nat) :
    EntryType.type_code b = b % 64 ∧
    EntryType.type_importance b = b / 32 % 2 ∧
    (EntryType.in_use b = true ↔ b / 64 % 2 = 1) ∧
    EntryType.type_code 0x85 = 0x05 ∧
    EntryType.in_use 0x85 = false := by
  have h64 : (2 : Nat) ^ 6 = 64 := by norm_num
  have h32 : (2 : Nat) ^ 5 = 32 := by norm_num
  refine ⟨?_, ?_, ?_, by decide, by decide⟩
  · have h : EntryType.type_code b = b &&& (2 ^ 6 - 1) := rfl
    rw [h, Nat.and_pow_two_sub_one_eq_mod, h64]
  · have h : EntryType.type_importance b = (b >>> 5) &&& 1 := rfl
    rw [h, Nat.and_one_is_mod, Nat.shiftRight_eq_div_pow, h32]
  · have h : EntryType.in_use b = (((b >>> 6) &&& 1) != 0) := rfl
    rw [h, Nat.and_one_is_mod, Nat.shiftRight_eq_div_pow, h64]
    simp only [bne_iff_ne, ne_eq]
    omega

/-- C7: `Fat::read_at_from` rejects any byte length that is not a multiple
of 4 through its contract-violation path (the panic), which is a different
channel from an I/O error; when the length is a multiple of 4 that path is
never taken. -/
theorem fat_len_contract (store : List Nat) (offs len : Nat) :
    (len % 4 ≠ 0 → Fat.read_at_from store offs len = .error .contract) ∧
    (len % 4 = 0 → Fat.read_at_from store offs len ≠ .error .contract) ∧
    FatReadError.contract ≠ FatReadError.io := by
  refine ⟨fun h => ?_, fun h => ?_, by decide⟩
  · unfold Fat.read_at_from
    rw [if_pos h]
  · unfold Fat.read_at_from
    rw [if_neg (fun hne => hne h)]
    simp

/-- C7 witness: a concrete rejected length and a concrete accepted one. -/
theorem fat_len_contract_witness :
    Fat.read_at_from [] 0 3 = .error .contract ∧
    Fat.read_at_from [] 0 4 ≠ .error .contract :=
  ⟨(fat_len_contract [] 0 3).1 (by decide),
   (fat_len_contract [] 0 4).2.1 (by decide)⟩

/-- C8: loading a FAT from 40 bytes produces the claimed 40 / 4 = 10
entries, but `Fat::cluster_ct` divides the entry count by 4 again and
returns `10 / 4 - 2 = 0` instead of the claimed `40 / 4 - 2 = 8`. -/
theorem fat_cluster_ct_wrong :
    Fat.read_at_from (List.replicate 40 0) 0 40 = .ok ⟨List.replicate 10 0⟩ ∧
    (Fat.mk (List.replicate 10 0)).v.length = 40 / 4 ∧
    Fat.cluster_ct ⟨List.replicate 10 0⟩ = 0 ∧
    (40 : Nat) / 4 - 2 = 8 := by
  refine ⟨by decide, by decide, by decide, by decide⟩

/-- C10: the walker's yielded values (success and error alike) are a
deterministic function of the table and the starting entry; the first
carried value is the starting entry, and every subsequent carried value is
the FAT entry stored at its predecessor. -/
theorem clusterChain_linkage (f : Fat) (s fuel : Nat) :
    (∀ x, (ClusterChain.trace f s fuel).head? = some x → carried x = s) ∧
    linked f ((ClusterChain.trace f s fuel).map carried) := by
  induction fuel generalizing s with
  | zero =>
    refine ⟨fun x hx => ?_, ?_⟩
    · simp [ClusterChain.trace] at hx
    · simp [ClusterChain.trace, linked]
  | succ n ih =>
    cases hn : ClusterChain.next f s with
    | done =>
      refine ⟨fun x hx => ?_, ?_⟩
      · rw [trace_succ, hn] at hx
        simp at hx
      · rw [trace_succ, hn]
        simp [linked]
    | panic =>
      refine ⟨fun x hx => ?_, ?_⟩
      · rw [trace_succ, hn] at hx
        simp at hx
      · rw [trace_succ, hn]
        simp [linked]
    | item i m =>
      obtain ⟨hc, he⟩ := next_item_spec f s i m hn
      refine ⟨fun x hx => ?_, ?_⟩
      · rw [trace_succ, hn] at hx
        simp only [List.head?_cons, Option.some.injEq] at hx
        rw [← hx, hc]
      · rw [trace_succ, hn]
        simp only [List.map_cons]
        cases ht : ClusterChain.trace f m n with
        | nil =>
          simp [linked]
        | cons y ys =>
          have hy : carried y = m := (ih m).1 y (by rw [ht]; rfl)
          have hrest : linked f (List.map carried (y :: ys)) := by
            rw [← ht]
            exact (ih m).2
          simp only [List.map_cons] at hrest ⊢
          exact ⟨by rw [hc, hy]; exact he, hrest⟩

/-- C10 witness: the linkage theorem applied to a concrete table and start
cluster, discharging the head hypothesis there. -/
theorem clusterChain_linkage_witness : carried (Except.ok 5) = 5 :=
  (clusterChain_linkage ⟨[0, 0, 0, 0, 0, 6, 0xFFFFFFFF]⟩ 5 2).1
    (Except.ok 5) (by decide)

end Exfat
